import Mathlib

/-!
Verification of the Node.js FFI bridge (`bindings/nodejs/src/native/addon.cc`)
of gzh-cli. The bridge marshals host (JavaScript) values into C records,
calls the external Go engine through a fixed set of entry points, and
translates the engine-owned result envelope back into a host value.

The embedding is a shallow one with an explicit event trace: every bridge
operation returns its host-visible outcome together with the list of
observable boundary events it performed (string allocations via strdup,
string frees, engine entry-point calls with their arguments and returned
envelope, and envelope releases via gzh_node_free_result). The engine is
an external collaborator and is modelled as a record of uninterpreted
functions; a returned envelope pointer is `Option gzh_result_t`, where
`none` models a null pointer.
-/

/-- A host-side (JavaScript) object at this boundary. The bridge only ever
reads the twelve named fields below, each with a presence check (`Has`)
before a typed read; an absent field is `none`. -/
structure JsObject where
  timeout : Option Int := none
  retryCount : Option Int := none
  enablePlugins : Option Bool := none
  pluginDir : Option String := none
  logLevel : Option String := none
  logFile : Option String := none
  platforms : Option String := none
  outputDir : Option String := none
  concurrency : Option Int := none
  strategy : Option String := none
  includePrivate : Option Bool := none
  filters : Option String := none
deriving DecidableEq, Repr

/-- A host-side argument value, as far as the bridge can distinguish it
(Napi type predicates IsNumber / IsObject / IsString). -/
inductive JsValue where
  | undefined
  | jsNull
  | num (n : Int)
  | boolean (b : Bool)
  | str (s : String)
  | obj (o : JsObject)
deriving DecidableEq, Repr

def JsValue.isNumber : JsValue → Bool
  | .num _ => true
  | _ => false

def JsValue.isObject : JsValue → Bool
  | .obj _ => true
  | _ => false

def JsValue.isString : JsValue → Bool
  | .str _ => true
  | _ => false

def JsValue.asNumber : JsValue → Int
  | .num n => n
  | _ => 0

def JsValue.asObject : JsValue → JsObject
  | .obj o => o
  | _ => {}

def JsValue.asString : JsValue → String
  | .str s => s
  | _ => ""

/-- `info[i]` on the Napi callback info: out-of-range access yields
`undefined`. -/
def argAt (info : List JsValue) (i : Nat) : JsValue :=
  info.getD i JsValue.undefined

/-- The C record `gzh_client_config_t`. A `char*` field is
`Option String`: `none` is the null pointer. -/
structure gzh_client_config_t where
  timeout : Int
  retry_count : Int
  enable_plugins : Int
  plugin_dir : Option String
  log_level : Option String
  log_file : Option String
deriving DecidableEq, Repr

/-- The C record `gzh_bulk_clone_request_t`. -/
structure gzh_bulk_clone_request_t where
  platforms_json : Option String
  output_dir : Option String
  concurrency : Int
  strategy : Option String
  include_private : Int
  filters_json : Option String
deriving DecidableEq, Repr

/-- The C record `gzh_result_t`: the result envelope returned by every
envelope-returning engine entry point. -/
structure gzh_result_t where
  success : Int
  error_msg : Option String
  data_json : Option String
deriving DecidableEq, Repr

/-- The external engine: the six C entry points declared in the
`extern "C"` block, as uninterpreted functions. Envelope-returning entry
points return `Option gzh_result_t`; `none` models a null pointer.
`gzh_node_client_destroy` returns void and is recorded only as a trace
event. -/
structure Engine where
  client_create : Option gzh_client_config_t → Int
  bulk_clone : Int → gzh_bulk_clone_request_t → Option gzh_result_t
  list_plugins : Int → Option gzh_result_t
  execute_plugin : Int → String → String → String → Int → Option gzh_result_t
  health : Int → Option gzh_result_t

/-- The four strdup sites of the bulk-clone request translator. -/
inductive StrSite where
  | platforms
  | outputDir
  | strategy
  | filters
deriving DecidableEq, Repr

/-- Observable boundary events of one bridge call. -/
inductive Event where
  | allocStr (site : StrSite) (content : String)
  | freeStr (site : StrSite)
  | clientCreateCall (config : Option gzh_client_config_t) (ret : Int)
  | clientDestroyCall (clientID : Int)
  | bulkCloneCall (clientID : Int) (request : gzh_bulk_clone_request_t)
      (ret : Option gzh_result_t)
  | listPluginsCall (clientID : Int) (ret : Option gzh_result_t)
  | executePluginCall (clientID : Int) (plugin_name method args_json : String)
      (timeout_seconds : Int) (ret : Option gzh_result_t)
  | healthCall (clientID : Int) (ret : Option gzh_result_t)
  | freeResult (envelope : gzh_result_t)
deriving DecidableEq, Repr

/-- The envelope returned by an envelope-returning engine call event,
when that call returned a non-null pointer. -/
def envelopeOf : Event → Option gzh_result_t
  | .bulkCloneCall _ _ r => r
  | .listPluginsCall _ r => r
  | .executePluginCall _ _ _ _ _ r => r
  | .healthCall _ r => r
  | _ => none

/-- All non-null envelopes received from the engine in a trace. -/
def envelopesReceived (tr : List Event) : List gzh_result_t :=
  tr.filterMap envelopeOf

/-- All envelopes passed to `gzh_node_free_result` in a trace. -/
def envelopesFreed (tr : List Event) : List gzh_result_t :=
  tr.filterMap fun e =>
    match e with
    | .freeResult r => some r
    | _ => none

/-- The sites of all request strings allocated (strdup) in a trace. -/
def allocatedSites (tr : List Event) : List StrSite :=
  tr.filterMap fun e =>
    match e with
    | .allocStr site _ => some site
    | _ => none

/-- The sites of all request strings freed in a trace. -/
def freedSites (tr : List Event) : List StrSite :=
  tr.filterMap fun e =>
    match e with
    | .freeStr site => some site
    | _ => none

/-- The request strings allocated (strdup) in a trace, with contents. -/
def allocatedStrings (tr : List Event) : List (StrSite × String) :=
  tr.filterMap fun e =>
    match e with
    | .allocStr site s => some (site, s)
    | _ => none

/-- The request records passed to `gzh_node_bulk_clone` in a trace. -/
def bulkCloneRequestsSent (tr : List Event) : List gzh_bulk_clone_request_t :=
  tr.filterMap fun e =>
    match e with
    | .bulkCloneCall _ req _ => some req
    | _ => none

/-- The timeout values passed to `gzh_node_execute_plugin` in a trace. -/
def executeTimeoutsSent (tr : List Event) : List Int :=
  tr.filterMap fun e =>
    match e with
    | .executePluginCall _ _ _ _ t _ => some t
    | _ => none

/-- `ObjectToClientConfig` (addon.cc lines 42-69): memset the record to
zero, then set each field only if present in the host object. -/
def ObjectToClientConfig (obj : JsObject) : gzh_client_config_t :=
  let config : gzh_client_config_t :=
    { timeout := 0, retry_count := 0, enable_plugins := 0,
      plugin_dir := none, log_level := none, log_file := none }
  let config := match obj.timeout with
    | some t => { config with timeout := t }
    | none => config
  let config := match obj.retryCount with
    | some r => { config with retry_count := r }
    | none => config
  let config := match obj.enablePlugins with
    | some b => { config with enable_plugins := if b then 1 else 0 }
    | none => config
  let config := match obj.pluginDir with
    | some s => { config with plugin_dir := some s }
    | none => config
  let config := match obj.logLevel with
    | some s => { config with log_level := some s }
    | none => config
  let config := match obj.logFile with
    | some s => { config with log_file := some s }
    | none => config
  config

/-- The configuration pointer `CreateClient` passes to the engine
(addon.cc lines 106-109): null unless the first argument is an object. -/
def configArgOf (info : List JsValue) : Option gzh_client_config_t :=
  if 0 < info.length && (argAt info 0).isObject then
    some (ObjectToClientConfig (argAt info 0).asObject)
  else
    none

/-- The host value built by `ResultToObject`: the three fields set on the
returned Napi object. A `none` field is JavaScript null. -/
structure ResultObject where
  success : Bool
  error : Option String
  data : Option String
deriving DecidableEq, Repr

/-- `ResultToObject` (addon.cc lines 82-100). -/
def ResultToObject (result : gzh_result_t) : ResultObject :=
  { success := result.success == 1
  , error := match result.error_msg with
      | some msg => some msg
      | none => none
  , data := match result.data_json with
      | some d => some d
      | none => none }

/-- The request record built by `BulkClone` (addon.cc lines 152-177):
memset to zero, then each field set only if present. -/
def buildRequest (o : JsObject) : gzh_bulk_clone_request_t :=
  let request : gzh_bulk_clone_request_t :=
    { platforms_json := none, output_dir := none, concurrency := 0,
      strategy := none, include_private := 0, filters_json := none }
  let request := match o.platforms with
    | some s => { request with platforms_json := some s }
    | none => request
  let request := match o.outputDir with
    | some s => { request with output_dir := some s }
    | none => request
  let request := match o.concurrency with
    | some n => { request with concurrency := n }
    | none => request
  let request := match o.strategy with
    | some s => { request with strategy := some s }
    | none => request
  let request := match o.includePrivate with
    | some b => { request with include_private := if b then 1 else 0 }
    | none => request
  let request := match o.filters with
    | some s => { request with filters_json := some s }
    | none => request
  request

/-- The strdup events `BulkClone` performs while building the request, in
source order: platforms, outputDir, strategy, filters. -/
def requestAllocEvents (o : JsObject) : List Event :=
  (match o.platforms with
    | some s => [Event.allocStr .platforms s]
    | none => []) ++
  (match o.outputDir with
    | some s => [Event.allocStr .outputDir s]
    | none => []) ++
  (match o.strategy with
    | some s => [Event.allocStr .strategy s]
    | none => []) ++
  (match o.filters with
    | some s => [Event.allocStr .filters s]
    | none => [])

/-- The free events `BulkClone` performs after the engine call
(addon.cc lines 182-185): each non-null request string is freed. -/
def requestFreeEvents (request : gzh_bulk_clone_request_t) : List Event :=
  (match request.platforms_json with
    | some _ => [Event.freeStr .platforms]
    | none => []) ++
  (match request.output_dir with
    | some _ => [Event.freeStr .outputDir]
    | none => []) ++
  (match request.strategy with
    | some _ => [Event.freeStr .strategy]
    | none => []) ++
  (match request.filters_json with
    | some _ => [Event.freeStr .filters]
    | none => [])

/-- Host-visible outcome of one bridge call. `typeError` is a thrown
Napi::TypeError; `ub` marks the dereference of a null envelope pointer
(undefined behavior in the C++ source, reached only when the engine
returns a null envelope). -/
inductive BridgeResult (α : Type) where
  | typeError (msg : String)
  | ok (v : α)
  | ub
deriving DecidableEq, Repr

/-- `CreateClient` (addon.cc lines 103-123). -/
def CreateClient (engine : Engine) (info : List JsValue) :
    BridgeResult Int × List Event :=
  let config := configArgOf info
  let clientID := engine.client_create config
  if clientID < 0 then
    (.typeError "Failed to create client", [Event.clientCreateCall config clientID])
  else
    (.ok clientID, [Event.clientCreateCall config clientID])

/-- `DestroyClient` (addon.cc lines 126-138). -/
def DestroyClient (_engine : Engine) (info : List JsValue) :
    BridgeResult Unit × List Event :=
  if info.length < 1 || !(argAt info 0).isNumber then
    (.typeError "Expected client ID", [])
  else
    (.ok (), [Event.clientDestroyCall (argAt info 0).asNumber])

/-- `BulkClone` (addon.cc lines 141-191): validate, build the request
(allocating a copy of each present string field), call the engine, free
the request strings, translate the envelope and release it. -/
def BulkClone (engine : Engine) (info : List JsValue) :
    BridgeResult ResultObject × List Event :=
  if info.length < 2 || !(argAt info 0).isNumber || !(argAt info 1).isObject then
    (.typeError "Expected client ID and request object", [])
  else
    match engine.bulk_clone (argAt info 0).asNumber (buildRequest (argAt info 1).asObject) with
    | some result =>
        (.ok (ResultToObject result),
          requestAllocEvents (argAt info 1).asObject ++
          [Event.bulkCloneCall (argAt info 0).asNumber
            (buildRequest (argAt info 1).asObject) (some result)] ++
          requestFreeEvents (buildRequest (argAt info 1).asObject) ++
          [Event.freeResult result])
    | none =>
        (.ub,
          requestAllocEvents (argAt info 1).asObject ++
          [Event.bulkCloneCall (argAt info 0).asNumber
            (buildRequest (argAt info 1).asObject) none] ++
          requestFreeEvents (buildRequest (argAt info 1).asObject))

/-- `ListPlugins` (addon.cc lines 194-209). -/
def ListPlugins (engine : Engine) (info : List JsValue) :
    BridgeResult ResultObject × List Event :=
  if info.length < 1 || !(argAt info 0).isNumber then
    (.typeError "Expected client ID", [])
  else
    match engine.list_plugins (argAt info 0).asNumber with
    | some result =>
        (.ok (ResultToObject result),
          [Event.listPluginsCall (argAt info 0).asNumber (some result),
           Event.freeResult result])
    | none =>
        (.ub, [Event.listPluginsCall (argAt info 0).asNumber none])

/-- `ExecutePlugin` (addon.cc lines 212-239): four mandatory typed
arguments; the timeout is the fifth argument when given, 30 otherwise. -/
def ExecutePlugin (engine : Engine) (info : List JsValue) :
    BridgeResult ResultObject × List Event :=
  if info.length < 4 || !(argAt info 0).isNumber || !(argAt info 1).isString ||
      !(argAt info 2).isString || !(argAt info 3).isString then
    (.typeError "Expected client ID, plugin name, method, and args", [])
  else
    let timeout := if 4 < info.length then (argAt info 4).asNumber else 30
    match engine.execute_plugin (argAt info 0).asNumber (argAt info 1).asString
        (argAt info 2).asString (argAt info 3).asString timeout with
    | some result =>
        (.ok (ResultToObject result),
          [Event.executePluginCall (argAt info 0).asNumber (argAt info 1).asString
            (argAt info 2).asString (argAt info 3).asString timeout (some result),
           Event.freeResult result])
    | none =>
        (.ub,
          [Event.executePluginCall (argAt info 0).asNumber (argAt info 1).asString
            (argAt info 2).asString (argAt info 3).asString timeout none])

/-- `Health` (addon.cc lines 242-257). -/
def Health (engine : Engine) (info : List JsValue) :
    BridgeResult ResultObject × List Event :=
  if info.length < 1 || !(argAt info 0).isNumber then
    (.typeError "Expected client ID", [])
  else
    match engine.health (argAt info 0).asNumber with
    | some result =>
        (.ok (ResultToObject result),
          [Event.healthCall (argAt info 0).asNumber (some result),
           Event.freeResult result])
    | none =>
        (.ub, [Event.healthCall (argAt info 0).asNumber none])

/-- An engine all of whose envelope-returning entry points return a
non-null envelope pointer. The C++ source relies on this precondition:
no operation null-checks the returned envelope. -/
def EngineNonNull (engine : Engine) : Prop :=
  (∀ c r, (engine.bulk_clone c r).isSome) ∧
  (∀ c, (engine.list_plugins c).isSome) ∧
  (∀ c p m a t, (engine.execute_plugin c p m a t).isSome) ∧
  (∀ c, (engine.health c).isSome)

/-- A concrete successful envelope, for witness instantiations. -/
def fakeResult : gzh_result_t :=
  { success := 1, error_msg := none, data_json := some "x" }

/-- A fake engine that always succeeds and always returns a non-null
envelope. -/
def fakeEngine : Engine :=
  { client_create := fun _ => 7
  , bulk_clone := fun _ _ => some fakeResult
  , list_plugins := fun _ => some fakeResult
  , execute_plugin := fun _ _ _ _ _ => some fakeResult
  , health := fun _ => some fakeResult }

/-- A fake engine whose creation fails and whose envelope-returning entry
points all return a null pointer. -/
def nullEngine : Engine :=
  { client_create := fun _ => -1
  , bulk_clone := fun _ _ => none
  , list_plugins := fun _ => none
  , execute_plugin := fun _ _ _ _ _ => none
  , health := fun _ => none }

/-! ### Helper lemmas about trace extractors -/

theorem envelopesFreed_append (a b : List Event) :
    envelopesFreed (a ++ b) = envelopesFreed a ++ envelopesFreed b := by
  simp [envelopesFreed]

theorem envelopesReceived_append (a b : List Event) :
    envelopesReceived (a ++ b) = envelopesReceived a ++ envelopesReceived b := by
  simp [envelopesReceived]

theorem allocatedSites_append (a b : List Event) :
    allocatedSites (a ++ b) = allocatedSites a ++ allocatedSites b := by
  simp [allocatedSites]

theorem freedSites_append (a b : List Event) :
    freedSites (a ++ b) = freedSites a ++ freedSites b := by
  simp [freedSites]

theorem allocatedStrings_append (a b : List Event) :
    allocatedStrings (a ++ b) = allocatedStrings a ++ allocatedStrings b := by
  simp [allocatedStrings]

theorem bulkCloneRequestsSent_append (a b : List Event) :
    bulkCloneRequestsSent (a ++ b) = bulkCloneRequestsSent a ++ bulkCloneRequestsSent b := by
  simp [bulkCloneRequestsSent]

theorem envelopesFreed_requestAllocEvents (o : JsObject) :
    envelopesFreed (requestAllocEvents o) = [] := by
  unfold requestAllocEvents
  cases o.platforms <;> cases o.outputDir <;> cases o.strategy <;> cases o.filters <;> rfl

theorem envelopesReceived_requestAllocEvents (o : JsObject) :
    envelopesReceived (requestAllocEvents o) = [] := by
  unfold requestAllocEvents
  cases o.platforms <;> cases o.outputDir <;> cases o.strategy <;> cases o.filters <;> rfl

theorem envelopesFreed_requestFreeEvents (r : gzh_bulk_clone_request_t) :
    envelopesFreed (requestFreeEvents r) = [] := by
  unfold requestFreeEvents
  cases r.platforms_json <;> cases r.output_dir <;> cases r.strategy <;> cases r.filters_json <;> rfl

theorem envelopesReceived_requestFreeEvents (r : gzh_bulk_clone_request_t) :
    envelopesReceived (requestFreeEvents r) = [] := by
  unfold requestFreeEvents
  cases r.platforms_json <;> cases r.output_dir <;> cases r.strategy <;> cases r.filters_json <;> rfl

theorem envelopesFreed_bulkCall (c : Int) (req : gzh_bulk_clone_request_t)
    (r : Option gzh_result_t) :
    envelopesFreed [Event.bulkCloneCall c req r] = [] := rfl

theorem envelopesReceived_bulkCall_some (c : Int) (req : gzh_bulk_clone_request_t)
    (r : gzh_result_t) :
    envelopesReceived [Event.bulkCloneCall c req (some r)] = [r] := rfl

theorem envelopesReceived_bulkCall_none (c : Int) (req : gzh_bulk_clone_request_t) :
    envelopesReceived [Event.bulkCloneCall c req none] = [] := rfl

theorem envelopesFreed_freeResultEvent (r : gzh_result_t) :
    envelopesFreed [Event.freeResult r] = [r] := rfl

theorem envelopesReceived_freeResultEvent (r : gzh_result_t) :
    envelopesReceived [Event.freeResult r] = [] := rfl

theorem envelopesReceived_createCall (cfg : Option gzh_client_config_t) (r : Int) :
    envelopesReceived [Event.clientCreateCall cfg r] = [] := rfl

theorem freedSites_requestAllocEvents (o : JsObject) :
    freedSites (requestAllocEvents o) = [] := by
  unfold requestAllocEvents
  cases o.platforms <;> cases o.outputDir <;> cases o.strategy <;> cases o.filters <;> rfl

theorem allocatedSites_requestFreeEvents (r : gzh_bulk_clone_request_t) :
    allocatedSites (requestFreeEvents r) = [] := by
  unfold requestFreeEvents
  cases r.platforms_json <;> cases r.output_dir <;> cases r.strategy <;> cases r.filters_json <;> rfl

theorem freedSites_bulkCall (c : Int) (req : gzh_bulk_clone_request_t)
    (r : Option gzh_result_t) :
    freedSites [Event.bulkCloneCall c req r] = [] := rfl

theorem allocatedSites_bulkCall (c : Int) (req : gzh_bulk_clone_request_t)
    (r : Option gzh_result_t) :
    allocatedSites [Event.bulkCloneCall c req r] = [] := rfl

theorem freedSites_freeResultEvent (r : gzh_result_t) :
    freedSites [Event.freeResult r] = [] := rfl

theorem allocatedSites_freeResultEvent (r : gzh_result_t) :
    allocatedSites [Event.freeResult r] = [] := rfl

theorem allocatedStrings_requestFreeEvents (r : gzh_bulk_clone_request_t) :
    allocatedStrings (requestFreeEvents r) = [] := by
  unfold requestFreeEvents
  cases r.platforms_json <;> cases r.output_dir <;> cases r.strategy <;> cases r.filters_json <;> rfl

theorem allocatedStrings_bulkCall (c : Int) (req : gzh_bulk_clone_request_t)
    (r : Option gzh_result_t) :
    allocatedStrings [Event.bulkCloneCall c req r] = [] := rfl

theorem allocatedStrings_freeResultEvent (r : gzh_result_t) :
    allocatedStrings [Event.freeResult r] = [] := rfl

theorem allocatedStrings_requestAllocEvents (o : JsObject) :
    allocatedStrings (requestAllocEvents o) =
      (match o.platforms with
        | some s => [(StrSite.platforms, s)]
        | none => []) ++
      (match o.outputDir with
        | some s => [(StrSite.outputDir, s)]
        | none => []) ++
      (match o.strategy with
        | some s => [(StrSite.strategy, s)]
        | none => []) ++
      (match o.filters with
        | some s => [(StrSite.filters, s)]
        | none => []) := by
  unfold requestAllocEvents
  cases o.platforms <;> cases o.outputDir <;> cases o.strategy <;> cases o.filters <;> rfl

theorem bulkCloneRequestsSent_requestAllocEvents (o : JsObject) :
    bulkCloneRequestsSent (requestAllocEvents o) = [] := by
  unfold requestAllocEvents
  cases o.platforms <;> cases o.outputDir <;> cases o.strategy <;> cases o.filters <;> rfl

theorem bulkCloneRequestsSent_requestFreeEvents (r : gzh_bulk_clone_request_t) :
    bulkCloneRequestsSent (requestFreeEvents r) = [] := by
  unfold requestFreeEvents
  cases r.platforms_json <;> cases r.output_dir <;> cases r.strategy <;> cases r.filters_json <;> rfl

theorem bulkCloneRequestsSent_bulkCall (c : Int) (req : gzh_bulk_clone_request_t)
    (r : Option gzh_result_t) :
    bulkCloneRequestsSent [Event.bulkCloneCall c req r] = [req] := rfl

theorem bulkCloneRequestsSent_freeResultEvent (r : gzh_result_t) :
    bulkCloneRequestsSent [Event.freeResult r] = [] := rfl

/-- The request record built by `BulkClone` is field-wise the content of
the host object: a present string field becomes an owned copy with equal
content, an absent one stays the null pointer, and scalar fields default
to zero. -/
theorem buildRequest_eq (o : JsObject) :
    buildRequest o =
      { platforms_json := o.platforms
      , output_dir := o.outputDir
      , concurrency := o.concurrency.getD 0
      , strategy := o.strategy
      , include_private := (o.includePrivate.map fun b => if b then (1 : Int) else 0).getD 0
      , filters_json := o.filters } := by
  unfold buildRequest
  cases o.platforms <;> cases o.outputDir <;> cases o.concurrency <;>
    cases o.strategy <;> cases o.includePrivate <;> cases o.filters <;> rfl

/-- Each strdup performed by the bulk-clone request translator is matched
by the free of the same string after the engine call, in the same order. -/
theorem freedSites_match_allocatedSites (o : JsObject) :
    freedSites (requestFreeEvents (buildRequest o)) = allocatedSites (requestAllocEvents o) := by
  rw [buildRequest_eq]
  unfold requestFreeEvents requestAllocEvents
  cases o.platforms <;> cases o.outputDir <;> cases o.strategy <;> cases o.filters <;> rfl

/-! ### Claim theorems -/

/-- Claim C1: for every envelope-returning operation (bulk clone, list
plugins, execute plugin, health check), `gzh_node_free_result` is invoked
exactly once on the result envelope received from the engine, on every
exit path of the call — the list of envelopes released equals the list of
envelopes received (at most one per call), for every engine and every
argument list. -/
theorem envelope_released_exactly_once (engine : Engine) (info : List JsValue) :
    envelopesFreed (BulkClone engine info).2 = envelopesReceived (BulkClone engine info).2 ∧
    envelopesFreed (ListPlugins engine info).2 = envelopesReceived (ListPlugins engine info).2 ∧
    envelopesFreed (ExecutePlugin engine info).2 = envelopesReceived (ExecutePlugin engine info).2 ∧
    envelopesFreed (Health engine info).2 = envelopesReceived (Health engine info).2 := by
  refine ⟨?_, ?_, ?_, ?_⟩
  · unfold BulkClone
    split
    · rfl
    · split <;>
        simp only [envelopesFreed_append, envelopesReceived_append,
          envelopesFreed_requestAllocEvents, envelopesReceived_requestAllocEvents,
          envelopesFreed_requestFreeEvents, envelopesReceived_requestFreeEvents,
          envelopesFreed_bulkCall, envelopesReceived_bulkCall_some,
          envelopesReceived_bulkCall_none, envelopesFreed_freeResultEvent,
          envelopesReceived_freeResultEvent, List.append_nil, List.nil_append]
  · unfold ListPlugins
    split
    · rfl
    · split <;> rfl
  · unfold ExecutePlugin
    split
    · rfl
    · dsimp only
      repeat' split
      all_goals rfl
  · unfold Health
    split
    · rfl
    · split <;> rfl

/-- Claim C2: in bulk clone, every heap string allocated for the request
record is freed in the same call frame on every exit path: the list of
freed strdup sites equals the list of allocated strdup sites, in order,
for every engine (success, failure, or null envelope) and every argument
list. -/
theorem bulk_clone_request_strings_freed (engine : Engine) (info : List JsValue) :
    freedSites (BulkClone engine info).2 = allocatedSites (BulkClone engine info).2 := by
  unfold BulkClone
  split
  · rfl
  · split <;>
      simp only [freedSites_append, allocatedSites_append, freedSites_requestAllocEvents,
        allocatedSites_requestFreeEvents, freedSites_bulkCall, allocatedSites_bulkCall,
        freedSites_freeResultEvent, allocatedSites_freeResultEvent,
        freedSites_match_allocatedSites, List.append_nil, List.nil_append]

/-- Claim C3: the translated host value of a result envelope has success
true exactly when the envelope success flag is 1, its error field equal to
the envelope error message (null exactly when no error message is
present), and its data field equal to the envelope payload (null exactly
when no payload is present). -/
theorem result_translation_fields (result : gzh_result_t) :
    ((ResultToObject result).success = true ↔ result.success = 1) ∧
    (ResultToObject result).error = result.error_msg ∧
    ((ResultToObject result).error = none ↔ result.error_msg = none) ∧
    (ResultToObject result).data = result.data_json ∧
    ((ResultToObject result).data = none ↔ result.data_json = none) := by
  obtain ⟨s, e, d⟩ := result
  cases e <;> cases d <;> simp [ResultToObject]

/-- Claim C4: when the handle argument is not a number or the request
argument is not an object (including missing arguments), bulk clone
raises a boundary type error synchronously and its trace is empty: no
string allocation and no engine call occur. -/
theorem bulk_clone_validation_fail_fast (engine : Engine) (info : List JsValue)
    (h : info.length < 2 ∨ (argAt info 0).isNumber = false ∨ (argAt info 1).isObject = false) :
    BulkClone engine info =
      (.typeError "Expected client ID and request object", []) := by
  have hc : (decide (info.length < 2) || !(argAt info 0).isNumber ||
      !(argAt info 1).isObject) = true := by
    rcases h with h | h | h <;> simp [h]
  simp [BulkClone, hc]

/-- Witness for C4: bulk clone invoked with only a handle fails the
boundary check with an empty trace. -/
theorem bulk_clone_validation_fail_fast_witness :
    BulkClone fakeEngine [JsValue.num 1] =
      (.typeError "Expected client ID and request object", []) :=
  bulk_clone_validation_fail_fast fakeEngine [JsValue.num 1] (Or.inl (by decide))

theorem argAt_zero (v : JsValue) (rest : List JsValue) : argAt (v :: rest) 0 = v := rfl

theorem argAt_succ (v : JsValue) (rest : List JsValue) (i : Nat) :
    argAt (v :: rest) (i + 1) = argAt rest i := rfl

theorem asObject_obj (o : JsObject) : (JsValue.obj o).asObject = o := rfl

theorem asNumber_num (n : Int) : (JsValue.num n).asNumber = n := rfl

theorem asString_str (s : String) : (JsValue.str s).asString = s := rfl

/-- Claim C5: in bulk clone, exactly one request record reaches the
engine; each of its string fields equals the corresponding input field
(a present field arrives content-equal, an absent one arrives as a null
pointer, never an empty string), and each present string field was
allocated as a fresh copy with exactly that content at its strdup site. -/
theorem bulk_clone_request_marshalling (engine : Engine) (c : Int) (o : JsObject) :
    bulkCloneRequestsSent (BulkClone engine [JsValue.num c, JsValue.obj o]).2 =
      [{ platforms_json := o.platforms
       , output_dir := o.outputDir
       , concurrency := o.concurrency.getD 0
       , strategy := o.strategy
       , include_private := (o.includePrivate.map fun b => if b then (1 : Int) else 0).getD 0
       , filters_json := o.filters }] ∧
    allocatedStrings (BulkClone engine [JsValue.num c, JsValue.obj o]).2 =
      (match o.platforms with
        | some s => [(StrSite.platforms, s)]
        | none => []) ++
      (match o.outputDir with
        | some s => [(StrSite.outputDir, s)]
        | none => []) ++
      (match o.strategy with
        | some s => [(StrSite.strategy, s)]
        | none => []) ++
      (match o.filters with
        | some s => [(StrSite.filters, s)]
        | none => []) := by
  constructor
  · unfold BulkClone
    split
    · rename_i hbad
      simp [argAt, JsValue.isNumber, JsValue.isObject] at hbad
    · split <;>
        simp only [argAt_zero, argAt_succ, asObject_obj, asNumber_num,
          bulkCloneRequestsSent_append, bulkCloneRequestsSent_requestAllocEvents,
          bulkCloneRequestsSent_requestFreeEvents, bulkCloneRequestsSent_bulkCall,
          bulkCloneRequestsSent_freeResultEvent, buildRequest_eq,
          List.append_nil, List.nil_append]
  · unfold BulkClone
    split
    · rename_i hbad
      simp [argAt, JsValue.isNumber, JsValue.isObject] at hbad
    · split <;>
        simp only [argAt_zero, argAt_succ, asObject_obj, asNumber_num,
          allocatedStrings_append, allocatedStrings_requestAllocEvents,
          allocatedStrings_requestFreeEvents, allocatedStrings_bulkCall,
          allocatedStrings_freeResultEvent, List.append_nil, List.nil_append]

/-- Claim C6: when the engine creation entry point returns a negative
sentinel, create client raises a host-visible type error, returns no
handle, and no result envelope is received; when it returns a
non-negative value, that value is returned as the session handle. -/
theorem create_client_sentinel (engine : Engine) (info : List JsValue) :
    (engine.client_create (configArgOf info) < 0 →
      CreateClient engine info =
        (.typeError "Failed to create client",
         [Event.clientCreateCall (configArgOf info)
            (engine.client_create (configArgOf info))]) ∧
      envelopesReceived (CreateClient engine info).2 = []) ∧
    (0 ≤ engine.client_create (configArgOf info) →
      CreateClient engine info =
        (.ok (engine.client_create (configArgOf info)),
         [Event.clientCreateCall (configArgOf info)
            (engine.client_create (configArgOf info))])) := by
  constructor
  · intro h
    constructor
    · simp [CreateClient, h]
    · simp [CreateClient, h, envelopesReceived_createCall]
  · intro h
    simp [CreateClient, not_lt.mpr h]

/-- Witness for C6: an engine whose creation returns -1 yields a type
error with no envelope; one whose creation returns 7 yields handle 7. -/
theorem create_client_sentinel_witness :
    (CreateClient nullEngine [] =
      (.typeError "Failed to create client", [Event.clientCreateCall none (-1)]) ∧
     envelopesReceived (CreateClient nullEngine []).2 = []) ∧
    CreateClient fakeEngine [] = (.ok 7, [Event.clientCreateCall none 7]) :=
  ⟨(create_client_sentinel nullEngine []).1 (by decide),
   (create_client_sentinel fakeEngine []).2 (by decide)⟩

/-- Claim C7: the config translator maps every absent optional string
field to a null pointer and every absent scalar field to its zero value,
and each present field to its host value; and create client passes a null
configuration pointer when no configuration argument is provided or the
first argument is not an object. -/
theorem config_translation (o : JsObject) :
    ObjectToClientConfig o =
      { timeout := o.timeout.getD 0
      , retry_count := o.retryCount.getD 0
      , enable_plugins := (o.enablePlugins.map fun b => if b then (1 : Int) else 0).getD 0
      , plugin_dir := o.pluginDir
      , log_level := o.logLevel
      , log_file := o.logFile } ∧
    configArgOf [] = none ∧
    (∀ v : JsValue, v.isObject = false → configArgOf [v] = none) := by
  refine ⟨?_, rfl, ?_⟩
  · unfold ObjectToClientConfig
    cases o.timeout <;> cases o.retryCount <;> cases o.enablePlugins <;>
      cases o.pluginDir <;> cases o.logLevel <;> cases o.logFile <;> rfl
  · intro v hv
    simp [configArgOf, argAt, hv]

/-- Witness for C7: an empty configuration object translates to the
all-defaults record, and a numeric first argument yields a null
configuration pointer. -/
theorem config_translation_witness :
    ObjectToClientConfig {} =
      { timeout := 0, retry_count := 0, enable_plugins := 0,
        plugin_dir := none, log_level := none, log_file := none } ∧
    JsValue.isObject (JsValue.num 3) = false ∧
    configArgOf [JsValue.num 3] = none :=
  ⟨(config_translation {}).1, by decide,
   (config_translation {}).2.2 (JsValue.num 3) (by decide)⟩

/-- Claim C8: execute plugin called with exactly the four mandatory
arguments passes timeout 30 to the engine; with an explicit fifth numeric
argument it passes that value instead — in both cases exactly one engine
call is made. -/
theorem execute_plugin_default_timeout (engine : Engine) (c t : Int) (p m a : String) :
    executeTimeoutsSent
      (ExecutePlugin engine
        [JsValue.num c, JsValue.str p, JsValue.str m, JsValue.str a]).2 = [30] ∧
    executeTimeoutsSent
      (ExecutePlugin engine
        [JsValue.num c, JsValue.str p, JsValue.str m, JsValue.str a, JsValue.num t]).2 = [t] := by
  constructor
  · unfold ExecutePlugin
    split
    · rename_i hbad
      simp [argAt, JsValue.isNumber, JsValue.isString] at hbad
    · dsimp only
      rw [if_neg (by simp :
        ¬ (4 : Nat) < ([JsValue.num c, JsValue.str p, JsValue.str m, JsValue.str a] : List JsValue).length)]
      split <;> rfl
  · unfold ExecutePlugin
    split
    · rename_i hbad
      simp [argAt, JsValue.isNumber, JsValue.isString] at hbad
    · dsimp only
      rw [if_pos (by simp :
        (4 : Nat) < ([JsValue.num c, JsValue.str p, JsValue.str m, JsValue.str a, JsValue.num t] : List JsValue).length)]
      split <;> rfl

/-- Claim C9: for every numeric handle value, including one already
destroyed or never issued, destroy client makes exactly one engine
destroy call and returns normally with no return value. -/
theorem destroy_client_safe (engine : Engine) (c : Int) :
    DestroyClient engine [JsValue.num c] = (.ok (), [Event.clientDestroyCall c]) := rfl

theorem envelopesFreed_cons_bulkCall (c : Int) (req : gzh_bulk_clone_request_t)
    (r : Option gzh_result_t) (tr : List Event) :
    envelopesFreed (Event.bulkCloneCall c req r :: tr) = envelopesFreed tr := rfl

/-- Claim C10: every envelope-returning operation dereferences the engine
result pointer with no null check: if the engine returns a null envelope
the operation reaches undefined behavior (and the envelope release never
runs), and if the engine never returns a null envelope no operation ever
reaches undefined behavior. -/
theorem null_envelope_precondition (engine : Engine) :
    ((∀ c r, engine.bulk_clone c r = none) →
      ∀ c o, (BulkClone engine [JsValue.num c, JsValue.obj o]).1 = BridgeResult.ub ∧
        envelopesFreed (BulkClone engine [JsValue.num c, JsValue.obj o]).2 = []) ∧
    ((∀ c, engine.list_plugins c = none) →
      ∀ c, (ListPlugins engine [JsValue.num c]).1 = BridgeResult.ub) ∧
    ((∀ c p m a t, engine.execute_plugin c p m a t = none) →
      ∀ c p m a, (ExecutePlugin engine
        [JsValue.num c, JsValue.str p, JsValue.str m, JsValue.str a]).1 = BridgeResult.ub) ∧
    ((∀ c, engine.health c = none) →
      ∀ c, (Health engine [JsValue.num c]).1 = BridgeResult.ub) ∧
    (EngineNonNull engine →
      ∀ info, (BulkClone engine info).1 ≠ BridgeResult.ub ∧
        (ListPlugins engine info).1 ≠ BridgeResult.ub ∧
        (ExecutePlugin engine info).1 ≠ BridgeResult.ub ∧
        (Health engine info).1 ≠ BridgeResult.ub) := by
  refine ⟨?_, ?_, ?_, ?_, ?_⟩
  · intro h c o
    constructor
    · simp [BulkClone, argAt, JsValue.isNumber, JsValue.isObject, h]
    · simp [BulkClone, argAt, JsValue.isNumber, JsValue.isObject, h,
        envelopesFreed_append, envelopesFreed_requestAllocEvents,
        envelopesFreed_requestFreeEvents, envelopesFreed_bulkCall,
        envelopesFreed_cons_bulkCall]
  · intro h c
    simp [ListPlugins, argAt, JsValue.isNumber, h]
  · intro h c p m a
    simp [ExecutePlugin, argAt, JsValue.isNumber, JsValue.isString, h]
  · intro h c
    simp [Health, argAt, JsValue.isNumber, h]
  · intro hnn info
    obtain ⟨hb, hl, he, hh⟩ := hnn
    refine ⟨?_, ?_, ?_, ?_⟩
    · unfold BulkClone
      split
      · simp
      · split
        · simp
        · rename_i heq
          have h2 := hb ((argAt info 0).asNumber) (buildRequest ((argAt info 1).asObject))
          rw [heq] at h2
          simp at h2
    · unfold ListPlugins
      split
      · simp
      · split
        · simp
        · rename_i heq
          have h2 := hl ((argAt info 0).asNumber)
          rw [heq] at h2
          simp at h2
    · unfold ExecutePlugin
      split
      · simp
      · dsimp only
        rcases Nat.lt_or_ge 4 info.length with h4 | h4
        · rw [if_pos h4]
          split
          · simp
          · rename_i heq
            have h2 := he ((argAt info 0).asNumber) ((argAt info 1).asString)
              ((argAt info 2).asString) ((argAt info 3).asString) ((argAt info 4).asNumber)
            rw [heq] at h2
            simp at h2
        · rw [if_neg (Nat.not_lt.mpr h4)]
          split
          · simp
          · rename_i heq
            have h2 := he ((argAt info 0).asNumber) ((argAt info 1).asString)
              ((argAt info 2).asString) ((argAt info 3).asString) 30
            rw [heq] at h2
            simp at h2
    · unfold Health
      split
      · simp
      · split
        · simp
        · rename_i heq
          have h2 := hh ((argAt info 0).asNumber)
          rw [heq] at h2
          simp at h2

/-- Witness for C10: with an engine returning only null envelopes, bulk
clone on a well-typed call reaches undefined behavior; with an engine
returning only non-null envelopes, it never does. -/
theorem null_envelope_precondition_witness :
    (BulkClone nullEngine [JsValue.num 1, JsValue.obj {}]).1 = BridgeResult.ub ∧
    (BulkClone fakeEngine [JsValue.num 1, JsValue.obj {}]).1 ≠ BridgeResult.ub :=
  ⟨(((null_envelope_precondition nullEngine).1 (fun _ _ => rfl)) 1 {}).1,
   (((null_envelope_precondition fakeEngine).2.2.2.2
      ⟨fun _ _ => rfl, fun _ => rfl, fun _ _ _ _ _ => rfl, fun _ => rfl⟩)
      [JsValue.num 1, JsValue.obj {}]).1⟩
